import Mathlib

/-!
Shallow embedding of `src/uberpy/core/base.py`: the retrying HTTP wrapper
(`_wrapper`), the single-shot request executor (`_request`), the backoff
computation, URL building, header handling, and the OAuth token fetcher
(`get_access_token`).

Modelling conventions:
* Python floats are modelled as `ℚ` (the claims concern orderings and exact
  formulas, not rounding).
* `random.uniform(0, jitter_max)` is modelled by an oracle `uni : ℕ → ℚ`
  giving the sample drawn in the loop iteration with a given `retries` value;
  theorems constrain it by `0 ≤ uni n ∧ uni n ≤ jmax`.
* The network is modelled by an oracle `ev : ℕ → TransportEvent` giving, for
  each attempt index (the value of `retries` when `_request` is entered),
  either the HTTP response received or a transport-level failure
  (`requests.ConnectionError` / `requests.Timeout`).
* `e.response.headers.get('Retry-After')` combined with `float(...)` is
  modelled abstractly by `RetryAfter`: the header is absent (or the empty,
  falsy string), present but not parseable as a Python float, or parseable
  with value `q`.
* `response.raise_for_status()` is external library code (requests); it is
  modelled by its documented behaviour: it raises `requests.HTTPError`
  exactly when `400 ≤ status_code < 600`.
* `response.json()` on a well-formed body yields a `Json` value; on an empty
  or malformed body it raises (modelled by `jsonDecodeError`), which
  `_wrapper` does not catch.
* `time.sleep(backoff)` raises `ValueError` when `backoff` is negative
  (CPython: "sleep length must be non-negative"); that exception matches
  neither `except` clause of the loop and aborts the call. This is
  reachable: a parseable negative `Retry-After` hint is used verbatim as
  the sleep duration.
-/

namespace Uberpy

/-- JSON values, the decoded form of a response body. -/
inductive Json where
  | null : Json
  | bool (b : Bool) : Json
  | num (q : ℚ) : Json
  | str (s : String) : Json
  | arr (elems : List Json) : Json
  | obj (fields : List (String × Json)) : Json
  deriving Repr

/-- Result of `e.response.headers.get('Retry-After')` combined with
`float(...)`: header absent (or empty, hence falsy under the walrus test),
present but unparseable, or parseable as the number `q`. -/
inductive RetryAfter where
  | absent : RetryAfter
  | malformed : RetryAfter
  | value (q : ℚ) : RetryAfter
  deriving Repr, DecidableEq

/-- The body (`response.content` / `response.json()`) of an HTTP response:
empty content, non-empty content that is not valid JSON, or valid JSON. -/
inductive BodyContent where
  | empty : BodyContent
  | malformed : BodyContent
  | json (j : Json) : BodyContent
  deriving Repr

/-- `not response.content` in the source: true iff the content is empty. -/
def BodyContent.isEmptyContent : BodyContent → Bool
  | .empty => true
  | _ => false

/-- An HTTP response as observed by `_request` / `_wrapper`. -/
structure Resp where
  status : ℕ
  retryAfter : RetryAfter
  body : BodyContent
  deriving Repr

/-- The Python exceptions that the embedded code can raise or catch. -/
inductive PyExc where
  | httpError (resp : Resp) : PyExc
  | connectionError (tag : ℕ) : PyExc
  | timeoutError (tag : ℕ) : PyExc
  | jsonDecodeError : PyExc
  | keyError (k : String) : PyExc
  | typeError : PyExc
  | assertionError : PyExc
  | valueError : PyExc
  deriving Repr

/-- What the transport produces for one attempt: an HTTP response, or a
transport-level failure (`requests.ConnectionError` / `requests.Timeout`).
The `tag` distinguishes distinct failure events. -/
inductive TransportEvent where
  | resp (r : Resp) : TransportEvent
  | connFail (tag : ℕ) : TransportEvent
  | timeoutFail (tag : ℕ) : TransportEvent
  deriving Repr

/-- `response.raise_for_status()` (requests library): raises `HTTPError`
exactly for client errors (4xx) and server errors (5xx). -/
def raisesForStatus (status : ℕ) : Prop :=
  400 ≤ status ∧ status < 600

instance (status : ℕ) : Decidable (raisesForStatus status) := by
  unfold raisesForStatus; infer_instance

/-- Lines 212–217 of `base.py`: `response.raise_for_status()`, then
`204`/empty-content handling, then `response.json()`. -/
def handleResponse (r : Resp) : Except PyExc Json :=
  if raisesForStatus r.status then .error (.httpError r)
  else if r.status = 204 ∨ r.body.isEmptyContent = true then .ok (.obj [])
  else match r.body with
    | .json j => .ok j
    | _ => .error .jsonDecodeError

/-- The outcome of one call to `_request` given the transport event for that
attempt. -/
def runRequest (ev : TransportEvent) : Except PyExc Json :=
  match ev with
  | .resp r => handleResponse r
  | .connFail t => .error (.connectionError t)
  | .timeoutFail t => .error (.timeoutError t)

/-- A transport event on which `_wrapper` retries (when budget remains): a
connection/timeout failure, or a response whose status makes `_request`
raise and lies in the configured retriable set. -/
def retriableEvent (codes : List ℕ) (e : TransportEvent) : Prop :=
  match e with
  | .resp r => raisesForStatus r.status ∧ r.status ∈ codes
  | .connFail _ => True
  | .timeoutFail _ => True

/-- The exception `_wrapper` captures in `exception` for a failing attempt
with the given transport event. -/
def capturedFailure (e : TransportEvent) : PyExc :=
  match e with
  | .resp r => .httpError r
  | .connFail t => .connectionError t
  | .timeoutFail t => .timeoutError t

/-- Lines 154–160 of `base.py`: `backoff = min(2**retries, 20) +
random.uniform(0, jitter_max)`, overwritten by `float(retry_after)` when the
`Retry-After` header is present and parses. `u` is the jitter sample drawn
for this iteration. -/
def computeBackoff (retries : ℕ) (u : ℚ) (hint : RetryAfter) : ℚ :=
  match hint with
  | .value q => q
  | _ => min ((2 : ℚ) ^ retries) 20 + u

/-- The observable outcome of `_wrapper`: the returned value or raised
exception, the list of `sleep` durations performed (in order), and the
number of `_request` attempts made. -/
structure WrapOut where
  result : Except PyExc Json
  sleeps : List ℚ
  attempts : ℕ
  deriving Repr

/-- `time.sleep(backoff)` followed by the rest of the loop: CPython's
`time.sleep` raises `ValueError` for a negative duration; that exception
matches neither `except` clause, so the call aborts after the one attempt
already made, with no suspension recorded. Otherwise the suspension is
recorded and the loop continues with the rest. -/
def pySleep (backoff : ℚ) (rest : WrapOut) : WrapOut :=
  if 0 ≤ backoff then ⟨rest.result, backoff :: rest.sleeps, rest.attempts + 1⟩
  else ⟨.error .valueError, [], 1⟩

/-- The sleep duration the loop computes in the iteration with a given
`retries` value, when the attempt at that index fails retriably: the
`Retry-After`-aware backoff for an HTTP failure (line 154–160), the plain
exponential formula for a connection/timeout failure (line 167). -/
def backoffAt (uni : ℕ → ℚ) (ev : ℕ → TransportEvent) (n : ℕ) : ℚ :=
  match ev n with
  | .resp r => computeBackoff n (uni n) r.retryAfter
  | _ => min ((2 : ℚ) ^ n) 20 + uni n

/-- Lines 172–175 of `base.py`: after the loop exits, `assert exception`
fails when no failure was captured, otherwise the captured failure is
re-raised. -/
def loopExit (exc : Option PyExc) : WrapOut :=
  match exc with
  | some e => ⟨.error e, [], 0⟩
  | none => ⟨.error .assertionError, [], 0⟩

/-- Lines 140–175 of `base.py`, the `while retries <= self._max_retries`
loop of `_wrapper`, starting from a given `retries` counter and captured
`exception`. `mr` is `self._max_retries` (an `int`, possibly negative),
`codes` is `self._retriable_http_codes`, `ev` the transport oracle, `uni`
the jitter-sample oracle. A `jsonDecodeError` escaping `_request` matches
neither `except` clause and propagates. When the loop exits, `assert
exception` fails iff no failure was ever captured. -/
def wrapperGo (mr : ℤ) (codes : List ℕ) (ev : ℕ → TransportEvent)
    (uni : ℕ → ℚ) (retries : ℕ) (exc : Option PyExc) : WrapOut :=
  if _h : (retries : ℤ) ≤ mr then
    match ev retries with
    | .resp r =>
      match handleResponse r with
      | .ok v => ⟨.ok v, [], 1⟩
      | .error (.httpError r') =>
        if r'.status ∈ codes then
          pySleep (computeBackoff retries (uni retries) r'.retryAfter)
            (wrapperGo mr codes ev uni (retries + 1) (some (.httpError r')))
        else
          ⟨.error (.httpError r'), [], 1⟩
      | .error e => ⟨.error e, [], 1⟩
    | .connFail t =>
      pySleep (min ((2 : ℚ) ^ retries) 20 + uni retries)
        (wrapperGo mr codes ev uni (retries + 1) (some (.connectionError t)))
    | .timeoutFail t =>
      pySleep (min ((2 : ℚ) ^ retries) 20 + uni retries)
        (wrapperGo mr codes ev uni (retries + 1) (some (.timeoutError t)))
  else
    loopExit exc
  termination_by (mr + 1 - retries).toNat
  decreasing_by all_goals omega

/-- `_wrapper`: the retry loop entered with `retries = 0` and no captured
exception. -/
def wrapper (mr : ℤ) (codes : List ℕ) (ev : ℕ → TransportEvent)
    (uni : ℕ → ℚ) : WrapOut :=
  wrapperGo mr codes ev uni 0 none

/-- `DEFAULT_RETRIABLE_HTTP_CODES` from `base.py`. -/
def DEFAULT_RETRIABLE_HTTP_CODES : List ℕ := [401, 429, 500, 502, 503, 504]

/-- `DEFAULT_JITTER_MAX = 0.5`. -/
def DEFAULT_JITTER_MAX : ℚ := 1 / 2

/-- `DEFAULT_MAX_RETRIES = 3`. -/
def DEFAULT_MAX_RETRIES : ℤ := 3

/-- `DEFAULT_TIMEOUT = 10`. -/
def DEFAULT_TIMEOUT : ℚ := 10

/-! ## URL building (lines 191–194 of `base.py`)

`str(arg)` / `str.strip('/')` / `str.rstrip('/')` / `urllib.parse.quote(_,
safe='')` / `'/'.join(...)` are modelled over `List Char`. `quote` with
`safe=''` keeps exactly the ASCII letters, digits and `_.-~` and
percent-encodes the UTF-8 bytes of every other character, with uppercase
hex digits. -/

/-- A positional argument of `_request` (`type URL = str | int`). -/
inductive UrlArg where
  | str (s : String) : UrlArg
  | int (i : ℤ) : UrlArg

/-- Python `str(arg)` for a `str | int` argument. -/
def pyStr : UrlArg → List Char
  | .str s => s.data
  | .int i => (toString i).data

/-- Python `s.strip('/')`: remove leading and trailing `'/'`. -/
def stripSlashes (s : List Char) : List Char :=
  ((s.dropWhile (· == '/')).reverse.dropWhile (· == '/')).reverse

/-- Python `s.rstrip('/')`: remove trailing `'/'` only. -/
def rstripSlashes (s : List Char) : List Char :=
  (s.reverse.dropWhile (· == '/')).reverse

/-- The characters `urllib.parse.quote` never escapes when `safe=''`:
ASCII letters, digits, and `_.-~`. -/
def isUnreservedChar (c : Char) : Bool :=
  c.isAlpha || c.isDigit || c == '_' || c == '.' || c == '-' || c == '~'

/-- Uppercase hexadecimal digit for `0 ≤ n ≤ 15`. -/
def hexDigit : ℕ → Char
  | 0 => '0' | 1 => '1' | 2 => '2' | 3 => '3' | 4 => '4'
  | 5 => '5' | 6 => '6' | 7 => '7' | 8 => '8' | 9 => '9'
  | 10 => 'A' | 11 => 'B' | 12 => 'C' | 13 => 'D' | 14 => 'E' | _ => 'F'

/-- UTF-8 encoding of a code point. -/
def utf8Bytes (n : ℕ) : List ℕ :=
  if n < 0x80 then [n]
  else if n < 0x800 then [0xC0 + n / 64, 0x80 + n % 64]
  else if n < 0x10000 then
    [0xE0 + n / 4096, 0x80 + (n / 64) % 64, 0x80 + n % 64]
  else
    [0xF0 + n / 262144, 0x80 + (n / 4096) % 64, 0x80 + (n / 64) % 64,
     0x80 + n % 64]

/-- `%XX` escape of one byte. -/
def percentByte (b : ℕ) : List Char :=
  ['%', hexDigit (b / 16), hexDigit (b % 16)]

/-- `urllib.parse.quote(c, safe='')` for a single character. -/
def quoteChar (c : Char) : List Char :=
  if isUnreservedChar c then [c]
  else ((utf8Bytes c.toNat).map percentByte).flatten

/-- `urllib.parse.quote(s, safe='')`. -/
def quoteSeg (s : List Char) : List Char :=
  (s.map quoteChar).flatten

/-- The percent-escaped path segment contributed by one argument:
`quote(str(arg).strip('/'), safe='')`. -/
def argSeg (a : UrlArg) : List Char :=
  quoteSeg (stripSlashes (pyStr a))

/-- Lines 191–194 of `base.py`: `'/'.join([api_root.rstrip('/'), quote(
str(arg).strip('/'), safe='') for arg in args])`. -/
def buildUrl (root : List Char) (args : List UrlArg) : List Char :=
  List.intercalate ['/'] (rstripSlashes root :: args.map argSeg)

/-- Whether two consecutive `'/'` occur somewhere in the string. -/
def hasDoubleSlash : List Char → Bool
  | c1 :: c2 :: rest => (c1 == '/' && c2 == '/') || hasDoubleSlash (c2 :: rest)
  | _ => false

/-! ## Header handling (lines 185–189 of `base.py`)

Python dicts with string keys are modelled as association lists with unique
keys, looked up with `List.lookup`. -/

/-- Python `d[k] = v`: update the value in place if the key is present,
else append the new binding. -/
def dictSet (d : List (String × String)) (k v : String) :
    List (String × String) :=
  if (d.lookup k).isSome then d.map (fun p => if p.1 = k then (k, v) else p)
  else d ++ [(k, v)]

/-- Python `d.setdefault(k, v)`. -/
def dictSetdefault (d : List (String × String)) (k v : String) :
    List (String × String) :=
  if (d.lookup k).isSome then d else d ++ [(k, v)]

/-- Lines 185–189 of `base.py`: `headers = {**(headers or {})}`, then
`headers['Authorization'] = f'Bearer {token}'`, then
`headers.setdefault('Accept', 'application/json')`. The first component of
the result is what the caller's mapping holds after the call (the code
rebinds the local name to a fresh copy and never writes through the
caller's reference); the second is the outgoing header mapping. -/
def requestHeaders (caller : Option (List (String × String)))
    (token : String) :
    Option (List (String × String)) × List (String × String) :=
  let h0 := caller.getD []
  let h1 := dictSet h0 "Authorization" ("Bearer " ++ token)
  let h2 := dictSetdefault h1 "Accept" "application/json"
  (caller, h2)

/-! ## Token fetcher (lines 219–250 of `base.py`) -/

/-- `OAUTH_URL` from `base.py`. -/
def OAUTH_URL : String := "https://auth.uber.com/oauth"

/-- One outbound `requests.post` call. -/
structure PostCall where
  url : String
  formData : List (String × String)
  timeout : ℚ
  deriving Repr

/-- The form-encoded body of the client-credentials grant (lines 230–235). -/
def tokenRequestData (client_id client_secret : String) :
    List (String × String) :=
  [("scope", "eats.deliveries"), ("client_id", client_id),
   ("grant_type", "client_credentials"), ("client_secret", client_secret)]

/-- `get_access_token` (lines 219–250 of `base.py`) with the default
`version='v2'` (the only value of `OAuthVersion`), given the response the
OAuth endpoint produces: the list of POST calls made and the returned
`access_token` field or raised exception. `response.raise_for_status()`
raises on 4xx/5xx; `response.json()` raises on an empty or malformed body;
`jwt['access_token']` raises `KeyError` when the field is missing and
`TypeError` when the decoded body is not an object. -/
def get_access_token (client_id client_secret : String) (resp : Resp) :
    List PostCall × Except PyExc Json :=
  let url := String.intercalate "/" [OAUTH_URL, "v2", "token"]
  let result : Except PyExc Json :=
    if raisesForStatus resp.status then .error (.httpError resp)
    else
      match resp.body with
      | .json (.obj fields) =>
        match fields.lookup "access_token" with
        | some v => .ok v
        | none => .error (.keyError "access_token")
      | .json _ => .error .typeError
      | _ => .error .jsonDecodeError
  ([⟨url, tokenRequestData client_id client_secret, DEFAULT_TIMEOUT⟩], result)

/-- Loop-exit step: when `retries > mr` and a failure was captured, the
captured failure is re-raised. -/
theorem wrapperGo_stop_some {mr : ℤ} {codes : List ℕ}
    {ev : ℕ → TransportEvent} {uni : ℕ → ℚ} {retries : ℕ} {e : PyExc}
    (h : ¬ (retries : ℤ) ≤ mr) :
    wrapperGo mr codes ev uni retries (some e) = ⟨.error e, [], 0⟩ := by
  conv_lhs => rw [wrapperGo.eq_def]
  simp only [dif_neg h, loopExit]

/-- Loop-exit step: when `retries > mr` and no failure was captured,
`assert exception` fails. -/
theorem wrapperGo_stop_none {mr : ℤ} {codes : List ℕ}
    {ev : ℕ → TransportEvent} {uni : ℕ → ℚ} {retries : ℕ}
    (h : ¬ (retries : ℤ) ≤ mr) :
    wrapperGo mr codes ev uni retries none = ⟨.error .assertionError, [], 0⟩ := by
  conv_lhs => rw [wrapperGo.eq_def]
  simp only [dif_neg h, loopExit]

/-- Successful-attempt step. -/
theorem wrapperGo_ok {mr : ℤ} {codes : List ℕ} {ev : ℕ → TransportEvent}
    {uni : ℕ → ℚ} {retries : ℕ} {exc : Option PyExc} {r : Resp} {v : Json}
    (h : (retries : ℤ) ≤ mr) (hev : ev retries = .resp r)
    (hr : handleResponse r = .ok v) :
    wrapperGo mr codes ev uni retries exc = ⟨.ok v, [], 1⟩ := by
  conv_lhs => rw [wrapperGo.eq_def]
  simp only [dif_pos h, hev, hr]

/-- Retriable-HTTP-failure step: sleep, increment, continue. -/
theorem wrapperGo_http_retry {mr : ℤ} {codes : List ℕ}
    {ev : ℕ → TransportEvent} {uni : ℕ → ℚ} {retries : ℕ}
    {exc : Option PyExc} {r r' : Resp}
    (h : (retries : ℤ) ≤ mr) (hev : ev retries = .resp r)
    (hr : handleResponse r = .error (.httpError r')) (hc : r'.status ∈ codes) :
    wrapperGo mr codes ev uni retries exc =
      pySleep (computeBackoff retries (uni retries) r'.retryAfter)
        (wrapperGo mr codes ev uni (retries + 1) (some (.httpError r'))) := by
  conv_lhs => rw [wrapperGo.eq_def]
  simp only [dif_pos h, hev, hr, if_pos hc]

/-- Non-retriable-HTTP-failure step: re-raise immediately. -/
theorem wrapperGo_http_fatal {mr : ℤ} {codes : List ℕ}
    {ev : ℕ → TransportEvent} {uni : ℕ → ℚ} {retries : ℕ}
    {exc : Option PyExc} {r r' : Resp}
    (h : (retries : ℤ) ≤ mr) (hev : ev retries = .resp r)
    (hr : handleResponse r = .error (.httpError r')) (hc : r'.status ∉ codes) :
    wrapperGo mr codes ev uni retries exc = ⟨.error (.httpError r'), [], 1⟩ := by
  conv_lhs => rw [wrapperGo.eq_def]
  simp only [dif_pos h, hev, hr, if_neg hc]

/-- A `JSONDecodeError` from `_request` matches neither `except` clause and
propagates out of the loop. -/
theorem wrapperGo_jsonDecode {mr : ℤ} {codes : List ℕ}
    {ev : ℕ → TransportEvent} {uni : ℕ → ℚ} {retries : ℕ}
    {exc : Option PyExc} {r : Resp}
    (h : (retries : ℤ) ≤ mr) (hev : ev retries = .resp r)
    (hr : handleResponse r = .error .jsonDecodeError) :
    wrapperGo mr codes ev uni retries exc = ⟨.error .jsonDecodeError, [], 1⟩ := by
  conv_lhs => rw [wrapperGo.eq_def]
  simp only [dif_pos h, hev, hr]

/-- Connection-failure step: sleep with the exponential formula, continue. -/
theorem wrapperGo_conn {mr : ℤ} {codes : List ℕ} {ev : ℕ → TransportEvent}
    {uni : ℕ → ℚ} {retries : ℕ} {exc : Option PyExc} {t : ℕ}
    (h : (retries : ℤ) ≤ mr) (hev : ev retries = .connFail t) :
    wrapperGo mr codes ev uni retries exc =
      pySleep (min ((2 : ℚ) ^ retries) 20 + uni retries)
        (wrapperGo mr codes ev uni (retries + 1) (some (.connectionError t))) := by
  conv_lhs => rw [wrapperGo.eq_def]
  simp only [dif_pos h, hev]

/-- Timeout-failure step: sleep with the exponential formula, continue. -/
theorem wrapperGo_timeout {mr : ℤ} {codes : List ℕ} {ev : ℕ → TransportEvent}
    {uni : ℕ → ℚ} {retries : ℕ} {exc : Option PyExc} {t : ℕ}
    (h : (retries : ℤ) ≤ mr) (hev : ev retries = .timeoutFail t) :
    wrapperGo mr codes ev uni retries exc =
      pySleep (min ((2 : ℚ) ^ retries) 20 + uni retries)
        (wrapperGo mr codes ev uni (retries + 1) (some (.timeoutError t))) := by
  conv_lhs => rw [wrapperGo.eq_def]
  simp only [dif_pos h, hev]

/-- `handleResponse` never raises anything other than an `HTTPError` on the
response itself or a `JSONDecodeError`. -/
theorem handleResponse_shape (r : Resp) :
    (∃ v, handleResponse r = .ok v) ∨
      handleResponse r = .error (.httpError r) ∨
      handleResponse r = .error .jsonDecodeError := by
  unfold handleResponse
  split
  · exact Or.inr (Or.inl rfl)
  · split
    · exact Or.inl ⟨_, rfl⟩
    · cases hb : r.body with
      | empty => simp [hb]
      | malformed => simp
      | json j => exact Or.inl ⟨j, rfl⟩

@[simp] theorem WrapOut_result_mk (a : Except PyExc Json) (b : List ℚ)
    (c : ℕ) : (WrapOut.mk a b c).result = a := rfl

@[simp] theorem WrapOut_sleeps_mk (a : Except PyExc Json) (b : List ℚ)
    (c : ℕ) : (WrapOut.mk a b c).sleeps = b := rfl

@[simp] theorem WrapOut_attempts_mk (a : Except PyExc Json) (b : List ℚ)
    (c : ℕ) : (WrapOut.mk a b c).attempts = c := rfl

/-- A non-negative duration is slept and the loop continues. -/
theorem pySleep_nonneg {b : ℚ} (rest : WrapOut) (h : 0 ≤ b) :
    pySleep b rest = ⟨rest.result, b :: rest.sleeps, rest.attempts + 1⟩ := by
  unfold pySleep
  rw [if_pos h]

/-- A negative duration makes `time.sleep` raise `ValueError`, which is
uncaught: the call aborts with it after the single attempt just made. -/
theorem pySleep_neg {b : ℚ} (rest : WrapOut) (h : ¬ 0 ≤ b) :
    pySleep b rest = ⟨.error .valueError, [], 1⟩ := by
  unfold pySleep
  rw [if_neg h]

/-- A 4xx/5xx response makes `_request` raise the `HTTPError` carrying that
very response. -/
theorem handleResponse_http {r : Resp} (h : raisesForStatus r.status) :
    handleResponse r = .error (.httpError r) := by
  unfold handleResponse
  rw [if_pos h]

/-- The loop makes at most `max_retries + 1 - retries` further attempts. -/
theorem wrapperGo_attempts_le (mr : ℤ) (codes : List ℕ)
    (ev : ℕ → TransportEvent) (uni : ℕ → ℚ) :
    ∀ (k retries : ℕ) (exc : Option PyExc), (mr + 1 - retries).toNat ≤ k →
      (wrapperGo mr codes ev uni retries exc).attempts ≤
        (mr + 1 - retries).toNat := by
  intro k
  induction k with
  | zero =>
    intro retries exc hk
    have hg : ¬ (retries : ℤ) ≤ mr := by omega
    cases exc with
    | some e => rw [wrapperGo_stop_some hg]; exact Nat.zero_le _
    | none => rw [wrapperGo_stop_none hg]; exact Nat.zero_le _
  | succ k ih =>
    intro retries exc hk
    by_cases hg : (retries : ℤ) ≤ mr
    · cases hev : ev retries with
      | resp r =>
        rcases handleResponse_shape r with ⟨v, hr⟩ | hr | hr
        · rw [wrapperGo_ok hg hev hr]
          show 1 ≤ (mr + 1 - retries).toNat
          omega
        · by_cases hc : r.status ∈ codes
          · rw [wrapperGo_http_retry hg hev hr hc]
            have hrec := ih (retries + 1) (some (.httpError r)) (by omega)
            by_cases hb :
                (0 : ℚ) ≤ computeBackoff retries (uni retries) r.retryAfter
            · rw [pySleep_nonneg _ hb]
              simp only [WrapOut_attempts_mk]
              omega
            · rw [pySleep_neg _ hb]
              simp only [WrapOut_attempts_mk]
              omega
          · rw [wrapperGo_http_fatal hg hev hr hc]
            show 1 ≤ (mr + 1 - retries).toNat
            omega
        · rw [wrapperGo_jsonDecode hg hev hr]
          show 1 ≤ (mr + 1 - retries).toNat
          omega
      | connFail t =>
        rw [wrapperGo_conn hg hev]
        have hrec := ih (retries + 1) (some (.connectionError t)) (by omega)
        by_cases hb : (0 : ℚ) ≤ min ((2 : ℚ) ^ retries) 20 + uni retries
        · rw [pySleep_nonneg _ hb]
          simp only [WrapOut_attempts_mk]
          omega
        · rw [pySleep_neg _ hb]
          simp only [WrapOut_attempts_mk]
          omega
      | timeoutFail t =>
        rw [wrapperGo_timeout hg hev]
        have hrec := ih (retries + 1) (some (.timeoutError t)) (by omega)
        by_cases hb : (0 : ℚ) ≤ min ((2 : ℚ) ^ retries) 20 + uni retries
        · rw [pySleep_nonneg _ hb]
          simp only [WrapOut_attempts_mk]
          omega
        · rw [pySleep_neg _ hb]
          simp only [WrapOut_attempts_mk]
          omega
    · cases exc with
      | some e => rw [wrapperGo_stop_some hg]; exact Nat.zero_le _
      | none => rw [wrapperGo_stop_none hg]; exact Nat.zero_le _

/-- When the loop returns a value, some attempt that was actually made
produced exactly that value. -/
theorem wrapperGo_result_ok (mr : ℤ) (codes : List ℕ)
    (ev : ℕ → TransportEvent) (uni : ℕ → ℚ) :
    ∀ (k retries : ℕ) (exc : Option PyExc) (v : Json),
      (mr + 1 - retries).toNat ≤ k →
      (wrapperGo mr codes ev uni retries exc).result = .ok v →
      ∃ n, retries ≤ n ∧
        n < retries + (wrapperGo mr codes ev uni retries exc).attempts ∧
        runRequest (ev n) = .ok v := by
  intro k
  induction k with
  | zero =>
    intro retries exc v hk hres
    have hg : ¬ (retries : ℤ) ≤ mr := by omega
    cases exc with
    | some e => rw [wrapperGo_stop_some hg] at hres; simp at hres
    | none => rw [wrapperGo_stop_none hg] at hres; simp at hres
  | succ k ih =>
    intro retries exc v hk hres
    by_cases hg : (retries : ℤ) ≤ mr
    · cases hev : ev retries with
      | resp r =>
        rcases handleResponse_shape r with ⟨w, hr⟩ | hr | hr
        · rw [wrapperGo_ok hg hev hr] at hres ⊢
          simp at hres
          refine ⟨retries, le_refl _, by simp, ?_⟩
          simp [runRequest, hev, hr, hres]
        · by_cases hc : r.status ∈ codes
          · rw [wrapperGo_http_retry hg hev hr hc] at hres ⊢
            by_cases hb :
                (0 : ℚ) ≤ computeBackoff retries (uni retries) r.retryAfter
            · rw [pySleep_nonneg _ hb] at hres ⊢
              simp only [WrapOut_result_mk] at hres
              simp only [WrapOut_attempts_mk]
              obtain ⟨n, h1, h2, h3⟩ :=
                ih (retries + 1) (some (.httpError r)) v (by omega) hres
              exact ⟨n, by omega, by omega, h3⟩
            · rw [pySleep_neg _ hb] at hres
              simp at hres
          · rw [wrapperGo_http_fatal hg hev hr hc] at hres; simp at hres
        · rw [wrapperGo_jsonDecode hg hev hr] at hres; simp at hres
      | connFail t =>
        rw [wrapperGo_conn hg hev] at hres ⊢
        by_cases hb : (0 : ℚ) ≤ min ((2 : ℚ) ^ retries) 20 + uni retries
        · rw [pySleep_nonneg _ hb] at hres ⊢
          simp only [WrapOut_result_mk] at hres
          simp only [WrapOut_attempts_mk]
          obtain ⟨n, h1, h2, h3⟩ :=
            ih (retries + 1) (some (.connectionError t)) v (by omega) hres
          exact ⟨n, by omega, by omega, h3⟩
        · rw [pySleep_neg _ hb] at hres
          simp at hres
      | timeoutFail t =>
        rw [wrapperGo_timeout hg hev] at hres ⊢
        by_cases hb : (0 : ℚ) ≤ min ((2 : ℚ) ^ retries) 20 + uni retries
        · rw [pySleep_nonneg _ hb] at hres ⊢
          simp only [WrapOut_result_mk] at hres
          simp only [WrapOut_attempts_mk]
          obtain ⟨n, h1, h2, h3⟩ :=
            ih (retries + 1) (some (.timeoutError t)) v (by omega) hres
          exact ⟨n, by omega, by omega, h3⟩
        · rw [pySleep_neg _ hb] at hres
          simp at hres
    · cases exc with
      | some e => rw [wrapperGo_stop_some hg] at hres; simp at hres
      | none => rw [wrapperGo_stop_none hg] at hres; simp at hres

/-- When the loop can still run (or a genuine failure is already captured),
the `assert exception` never fires. -/
theorem wrapperGo_no_assert (mr : ℤ) (codes : List ℕ)
    (ev : ℕ → TransportEvent) (uni : ℕ → ℚ) :
    ∀ (k retries : ℕ) (exc : Option PyExc), (mr + 1 - retries).toNat ≤ k →
      (∀ e, exc = some e → e ≠ .assertionError) →
      ((retries : ℤ) ≤ mr ∨ exc ≠ none) →
      (wrapperGo mr codes ev uni retries exc).result ≠
        .error .assertionError := by
  intro k
  induction k with
  | zero =>
    intro retries exc hk hexc hor
    have hg : ¬ (retries : ℤ) ≤ mr := by omega
    cases exc with
    | some e =>
      rw [wrapperGo_stop_some hg]
      intro hcon
      simp at hcon
      exact hexc e rfl hcon
    | none =>
      rcases hor with h | h
      · exact absurd h hg
      · exact absurd rfl h
  | succ k ih =>
    intro retries exc hk hexc hor
    by_cases hg : (retries : ℤ) ≤ mr
    · cases hev : ev retries with
      | resp r =>
        rcases handleResponse_shape r with ⟨w, hr⟩ | hr | hr
        · rw [wrapperGo_ok hg hev hr]; simp
        · by_cases hc : r.status ∈ codes
          · rw [wrapperGo_http_retry hg hev hr hc]
            by_cases hb :
                (0 : ℚ) ≤ computeBackoff retries (uni retries) r.retryAfter
            · rw [pySleep_nonneg _ hb]
              simp only [WrapOut_result_mk]
              apply ih (retries + 1) (some (.httpError r)) (by omega)
              · intro e he
                injection he with he'
                rw [← he']
                simp
              · exact Or.inr (by simp)
            · rw [pySleep_neg _ hb]
              simp
          · rw [wrapperGo_http_fatal hg hev hr hc]; simp
        · rw [wrapperGo_jsonDecode hg hev hr]; simp
      | connFail t =>
        rw [wrapperGo_conn hg hev]
        by_cases hb : (0 : ℚ) ≤ min ((2 : ℚ) ^ retries) 20 + uni retries
        · rw [pySleep_nonneg _ hb]
          simp only [WrapOut_result_mk]
          apply ih (retries + 1) (some (.connectionError t)) (by omega)
          · intro e he
            injection he with he'
            rw [← he']
            simp
          · exact Or.inr (by simp)
        · rw [pySleep_neg _ hb]
          simp
      | timeoutFail t =>
        rw [wrapperGo_timeout hg hev]
        by_cases hb : (0 : ℚ) ≤ min ((2 : ℚ) ^ retries) 20 + uni retries
        · rw [pySleep_nonneg _ hb]
          simp only [WrapOut_result_mk]
          apply ih (retries + 1) (some (.timeoutError t)) (by omega)
          · intro e he
            injection he with he'
            rw [← he']
            simp
          · exact Or.inr (by simp)
        · rw [pySleep_neg _ hb]
          simp
    · cases exc with
      | some e =>
        rw [wrapperGo_stop_some hg]
        intro hcon
        simp at hcon
        exact hexc e rfl hcon
      | none =>
        rcases hor with h | h
        · exact absurd h hg
        · exact absurd rfl h

/-- When every remaining attempt fails retriably (a retriable-status HTTP
response, a connection failure, or a timeout) and every computed backoff is
non-negative, the loop sleeps once per failure (the last failure included),
makes `max_retries + 1 - retries` attempts, and re-raises the captured
failure of the very last attempt. -/
theorem wrapperGo_exhaust (mr : ℤ) (codes : List ℕ)
    (ev : ℕ → TransportEvent) (uni : ℕ → ℚ) :
    ∀ (k retries : ℕ) (exc : Option PyExc),
      (mr + 1 - retries).toNat ≤ k →
      (retries : ℤ) ≤ mr →
      (∀ n, retries ≤ n → (n : ℤ) ≤ mr → retriableEvent codes (ev n)) →
      (∀ n, retries ≤ n → (n : ℤ) ≤ mr → 0 ≤ backoffAt uni ev n) →
      wrapperGo mr codes ev uni retries exc =
        ⟨.error (capturedFailure (ev mr.toNat)),
         (List.range' retries (mr.toNat + 1 - retries)).map (backoffAt uni ev),
         mr.toNat + 1 - retries⟩ := by
  intro k
  induction k with
  | zero =>
    intro retries exc hk hret _hall _hb
    exact absurd hret (by omega)
  | succ k ih =>
    intro retries exc hk hret hall hb
    have hall0 := hall retries (le_refl _) hret
    have hb0 := hb retries (le_refl _) hret
    have hlen1 : mr.toNat + 1 - retries = (mr.toNat + 1 - (retries + 1)) + 1 := by
      omega
    cases hev : ev retries with
    | resp r =>
      rw [hev] at hall0
      simp only [retriableEvent] at hall0
      obtain ⟨hraise, hcode⟩ := hall0
      have hba : backoffAt uni ev retries =
          computeBackoff retries (uni retries) r.retryAfter := by
        simp [backoffAt, hev]
      rw [hba] at hb0
      rw [wrapperGo_http_retry hret hev (handleResponse_http hraise) hcode,
        pySleep_nonneg _ hb0]
      by_cases hlast : ((retries + 1 : ℕ) : ℤ) ≤ mr
      · rw [ih (retries + 1) (some (.httpError r)) (by omega) hlast
          (fun n h1 h2 => hall n (by omega) h2)
          (fun n h1 h2 => hb n (by omega) h2)]
        rw [hlen1, List.range'_succ]
        simp [hba]
      · have hretmr : retries = mr.toNat := by omega
        rw [wrapperGo_stop_some hlast]
        have hlen : mr.toNat + 1 - retries = 1 := by omega
        rw [hlen, List.range'_one]
        simp [capturedFailure, ← hretmr, hev, hba]
    | connFail t =>
      have hba : backoffAt uni ev retries =
          min ((2 : ℚ) ^ retries) 20 + uni retries := by
        simp [backoffAt, hev]
      rw [hba] at hb0
      rw [wrapperGo_conn hret hev, pySleep_nonneg _ hb0]
      by_cases hlast : ((retries + 1 : ℕ) : ℤ) ≤ mr
      · rw [ih (retries + 1) (some (.connectionError t)) (by omega) hlast
          (fun n h1 h2 => hall n (by omega) h2)
          (fun n h1 h2 => hb n (by omega) h2)]
        rw [hlen1, List.range'_succ]
        simp [hba]
      · have hretmr : retries = mr.toNat := by omega
        rw [wrapperGo_stop_some hlast]
        have hlen : mr.toNat + 1 - retries = 1 := by omega
        rw [hlen, List.range'_one]
        simp [capturedFailure, ← hretmr, hev, hba]
    | timeoutFail t =>
      have hba : backoffAt uni ev retries =
          min ((2 : ℚ) ^ retries) 20 + uni retries := by
        simp [backoffAt, hev]
      rw [hba] at hb0
      rw [wrapperGo_timeout hret hev, pySleep_nonneg _ hb0]
      by_cases hlast : ((retries + 1 : ℕ) : ℤ) ≤ mr
      · rw [ih (retries + 1) (some (.timeoutError t)) (by omega) hlast
          (fun n h1 h2 => hall n (by omega) h2)
          (fun n h1 h2 => hb n (by omega) h2)]
        rw [hlen1, List.range'_succ]
        simp [hba]
      · have hretmr : retries = mr.toNat := by omega
        rw [wrapperGo_stop_some hlast]
        have hlen : mr.toNat + 1 - retries = 1 := by omega
        rw [hlen, List.range'_one]
        simp [capturedFailure, ← hretmr, hev, hba]

/-! ### URL-builder lemmas -/

theorem hexDigit_ne_slash (n : ℕ) : hexDigit n ≠ '/' := by
  unfold hexDigit
  split <;> decide

theorem slash_not_mem_percentByte (b : ℕ) : '/' ∉ percentByte b := by
  unfold percentByte
  intro hm
  simp only [List.mem_cons, List.not_mem_nil, or_false] at hm
  rcases hm with h | h | h
  · exact absurd h (by decide)
  · exact hexDigit_ne_slash _ h.symm
  · exact hexDigit_ne_slash _ h.symm

theorem slash_not_mem_quoteChar (c : Char) : '/' ∉ quoteChar c := by
  unfold quoteChar
  split
  · rename_i h
    intro hm
    simp only [List.mem_singleton] at hm
    rw [← hm] at h
    exact absurd h (by decide)
  · intro hm
    rw [List.mem_flatten] at hm
    obtain ⟨l, hl, hc⟩ := hm
    rw [List.mem_map] at hl
    obtain ⟨b, _, rfl⟩ := hl
    exact slash_not_mem_percentByte b hc

theorem utf8Bytes_ne_nil (n : ℕ) : utf8Bytes n ≠ [] := by
  unfold utf8Bytes
  split
  · simp
  · split
    · simp
    · split
      · simp
      · simp

theorem quoteChar_ne_nil (c : Char) : quoteChar c ≠ [] := by
  unfold quoteChar
  split
  · simp
  · cases h8 : utf8Bytes c.toNat with
    | nil => exact absurd h8 (utf8Bytes_ne_nil _)
    | cons b bs => simp [h8, percentByte]

theorem slash_not_mem_quoteSeg (s : List Char) : '/' ∉ quoteSeg s := by
  unfold quoteSeg
  intro hm
  rw [List.mem_flatten] at hm
  obtain ⟨l, hl, hc⟩ := hm
  rw [List.mem_map] at hl
  obtain ⟨c, _, rfl⟩ := hl
  exact slash_not_mem_quoteChar c hc

theorem quoteSeg_ne_nil {s : List Char} (h : s ≠ []) : quoteSeg s ≠ [] := by
  cases s with
  | nil => exact absurd rfl h
  | cons c cs =>
    unfold quoteSeg
    simp only [List.map_cons, List.flatten_cons, ne_eq, List.append_eq_nil]
    intro hcon
    exact quoteChar_ne_nil c hcon.1

/-- `'/'.join(x :: xs)` is `x` followed by one `'/'` before each later
element. -/
theorem intercalate_slash (x : List Char) (xs : List (List Char)) :
    List.intercalate ['/'] (x :: xs) =
      x ++ (xs.map (fun s => '/' :: s)).flatten := by
  induction xs generalizing x with
  | nil => simp [List.intercalate]
  | cons y ys ih =>
    have h1 : List.intercalate ['/'] (x :: y :: ys) =
        x ++ '/' :: List.intercalate ['/'] (y :: ys) := by
      simp [List.intercalate]
    rw [h1, ih y]
    simp

/-! ### Dict (header) lemmas -/

theorem lookup_map_update (d : List (String × String)) (k v : String) :
    (d.map (fun p => if p.1 = k then (k, v) else p)).lookup k =
      if (d.lookup k).isSome then some v else none := by
  induction d with
  | nil => simp
  | cons p d' ih =>
    obtain ⟨a, b⟩ := p
    by_cases hak : a = k
    · subst hak
      simp [List.lookup_cons]
    · have hka : (k == a) = false := beq_eq_false_iff_ne.mpr (Ne.symm hak)
      simp only [List.map_cons, List.lookup_cons, hak, if_false, hka, ih]

theorem lookup_map_update_ne (d : List (String × String)) (k v k' : String)
    (hne : k' ≠ k) :
    (d.map (fun p => if p.1 = k then (k, v) else p)).lookup k' =
      d.lookup k' := by
  induction d with
  | nil => simp
  | cons p d' ih =>
    obtain ⟨a, b⟩ := p
    by_cases hak : a = k
    · subst hak
      have hk'a : (k' == a) = false := beq_eq_false_iff_ne.mpr hne
      simp [List.lookup_cons, hk'a, ih]
    · simp only [List.map_cons, List.lookup_cons, hak, if_false]
      cases hk'a : (k' == a) with
      | true => rfl
      | false => exact ih

theorem lookup_dictSet_self (d : List (String × String)) (k v : String) :
    (dictSet d k v).lookup k = some v := by
  unfold dictSet
  split
  · rename_i h
    rw [lookup_map_update, if_pos h]
  · rename_i h
    have hnone : d.lookup k = none := Option.not_isSome_iff_eq_none.mp h
    rw [List.lookup_append, hnone]
    simp

theorem lookup_dictSet_ne (d : List (String × String)) (k v k' : String)
    (hne : k' ≠ k) : (dictSet d k v).lookup k' = d.lookup k' := by
  unfold dictSet
  split
  · exact lookup_map_update_ne d k v k' hne
  · rw [List.lookup_append]
    have h1 : ([(k, v)] : List (String × String)).lookup k' = none := by
      rw [List.lookup_cons, beq_eq_false_iff_ne.mpr hne]
      rfl
    rw [h1]
    cases d.lookup k' <;> rfl

theorem lookup_dictSetdefault_self (d : List (String × String))
    (k v : String) :
    (dictSetdefault d k v).lookup k = some ((d.lookup k).getD v) := by
  unfold dictSetdefault
  split
  · rename_i h
    cases hd : d.lookup k with
    | none => rw [hd] at h; simp at h
    | some w => simp [hd]
  · rename_i h
    have hnone : d.lookup k = none := Option.not_isSome_iff_eq_none.mp h
    rw [List.lookup_append, hnone]
    simp [hnone]

theorem lookup_dictSetdefault_ne (d : List (String × String))
    (k v k' : String) (hne : k' ≠ k) :
    (dictSetdefault d k v).lookup k' = d.lookup k' := by
  unfold dictSetdefault
  split
  · rfl
  · rw [List.lookup_append]
    have h1 : ([(k, v)] : List (String × String)).lookup k' = none := by
      rw [List.lookup_cons, beq_eq_false_iff_ne.mpr hne]
      rfl
    rw [h1]
    cases d.lookup k' <;> rfl

/-- When all attempts before `m` are retriable failures with non-negative
computed backoffs and attempt `m` (within budget) succeeds with `v`, the
loop returns `v` after exactly `m + 1 - retries` further attempts. -/
theorem wrapperGo_ok_after (mr : ℤ) (codes : List ℕ)
    (ev : ℕ → TransportEvent) (uni : ℕ → ℚ) :
    ∀ (k retries : ℕ) (exc : Option PyExc) (m : ℕ) (v : Json),
      (mr + 1 - retries).toNat ≤ k →
      retries ≤ m → (m : ℤ) ≤ mr →
      (∀ n, retries ≤ n → n < m → retriableEvent codes (ev n)) →
      (∀ n, retries ≤ n → n < m → 0 ≤ backoffAt uni ev n) →
      runRequest (ev m) = .ok v →
      (wrapperGo mr codes ev uni retries exc).result = .ok v ∧
        (wrapperGo mr codes ev uni retries exc).attempts = m + 1 - retries := by
  intro k
  induction k with
  | zero =>
    intro retries exc m v hk hrm hmmr _hall _hbs _hok
    omega
  | succ k ih =>
    intro retries exc m v hk hrm hmmr hall hbs hok
    have hg : (retries : ℤ) ≤ mr := by omega
    rcases Nat.eq_or_lt_of_le hrm with heq | hlt
    · subst heq
      cases hev : ev retries with
      | resp r =>
        rw [hev] at hok
        simp only [runRequest] at hok
        rw [wrapperGo_ok hg hev hok]
        refine ⟨rfl, ?_⟩
        show 1 = retries + 1 - retries
        omega
      | connFail t => rw [hev] at hok; simp [runRequest] at hok
      | timeoutFail t => rw [hev] at hok; simp [runRequest] at hok
    · have hret := hall retries (le_refl _) hlt
      have hb0 := hbs retries (le_refl _) hlt
      cases hev : ev retries with
      | resp r =>
        rw [hev] at hret
        simp only [retriableEvent] at hret
        obtain ⟨hraise, hcode⟩ := hret
        have hba : backoffAt uni ev retries =
            computeBackoff retries (uni retries) r.retryAfter := by
          simp [backoffAt, hev]
        rw [hba] at hb0
        rw [wrapperGo_http_retry hg hev (handleResponse_http hraise) hcode,
          pySleep_nonneg _ hb0]
        obtain ⟨hres, hatt⟩ := ih (retries + 1) (some (.httpError r)) m v
          (by omega) (by omega) hmmr (fun n h1 h2 => hall n (by omega) h2)
          (fun n h1 h2 => hbs n (by omega) h2) hok
        refine ⟨?_, ?_⟩
        · simp only [WrapOut_result_mk, hres]
        · simp only [WrapOut_attempts_mk, hatt]
          omega
      | connFail t =>
        have hba : backoffAt uni ev retries =
            min ((2 : ℚ) ^ retries) 20 + uni retries := by
          simp [backoffAt, hev]
        rw [hba] at hb0
        rw [wrapperGo_conn hg hev, pySleep_nonneg _ hb0]
        obtain ⟨hres, hatt⟩ := ih (retries + 1) (some (.connectionError t)) m v
          (by omega) (by omega) hmmr (fun n h1 h2 => hall n (by omega) h2)
          (fun n h1 h2 => hbs n (by omega) h2) hok
        refine ⟨?_, ?_⟩
        · simp only [WrapOut_result_mk, hres]
        · simp only [WrapOut_attempts_mk, hatt]
          omega
      | timeoutFail t =>
        have hba : backoffAt uni ev retries =
            min ((2 : ℚ) ^ retries) 20 + uni retries := by
          simp [backoffAt, hev]
        rw [hba] at hb0
        rw [wrapperGo_timeout hg hev, pySleep_nonneg _ hb0]
        obtain ⟨hres, hatt⟩ := ih (retries + 1) (some (.timeoutError t)) m v
          (by omega) (by omega) hmmr (fun n h1 h2 => hall n (by omega) h2)
          (fun n h1 h2 => hbs n (by omega) h2) hok
        refine ⟨?_, ?_⟩
        · simp only [WrapOut_result_mk, hres]
        · simp only [WrapOut_attempts_mk, hatt]
          omega

end Uberpy

namespace Uberpy

/-! ## The claims -/

/-- C1: for every call through `_wrapper` with `max_retries ≥ 0`, the total
number of `_request` attempts is at most `max_retries + 1`; if the call
returns a value, that value is exactly the output of one of the attempts
made; and when every attempt before some in-budget attempt `m` fails
retriably with a non-negative computed backoff (a negative computed
backoff — reachable via a parseable negative `Retry-After` hint — would
instead abort the call with a `ValueError` from `time.sleep`) and attempt
`m` succeeds with `v`, the caller receives exactly `v`, regardless of how
many retriable failures preceded it. -/
theorem claim_C1 (mr : ℤ) (codes : List ℕ) (ev : ℕ → TransportEvent)
    (uni : ℕ → ℚ) (hmr : 0 ≤ mr) :
    ((wrapper mr codes ev uni).attempts : ℤ) ≤ mr + 1 ∧
    (∀ v, (wrapper mr codes ev uni).result = .ok v →
      ∃ n, n < (wrapper mr codes ev uni).attempts ∧
        runRequest (ev n) = .ok v) ∧
    (∀ (m : ℕ) (v : Json), (m : ℤ) ≤ mr →
      (∀ n, n < m → retriableEvent codes (ev n)) →
      (∀ n, n < m → 0 ≤ backoffAt uni ev n) →
      runRequest (ev m) = .ok v →
      (wrapper mr codes ev uni).result = .ok v ∧
        (wrapper mr codes ev uni).attempts = m + 1) := by
  unfold wrapper
  refine ⟨?_, ?_, ?_⟩
  · have h := wrapperGo_attempts_le mr codes ev uni
      (mr + 1 - (0 : ℕ)).toNat 0 none (le_refl _)
    omega
  · intro v hv
    obtain ⟨n, _h1, h2, h3⟩ := wrapperGo_result_ok mr codes ev uni
      (mr + 1 - (0 : ℕ)).toNat 0 none v (le_refl _) hv
    exact ⟨n, by omega, h3⟩
  · intro m v hm hall hbs hok
    have h := wrapperGo_ok_after mr codes ev uni
      (mr + 1 - (0 : ℕ)).toNat 0 none m v (le_refl _) (Nat.zero_le _) hm
      (fun n _ h2 => hall n h2) (fun n _ h2 => hbs n h2) hok
    exact ⟨h.1, by omega⟩

/-- C1 witness: `max_retries = 1`, a connection failure on attempt 0 and a
200 response with body `"d"` on attempt 1. -/
theorem claim_C1_witness :
    (0 : ℤ) ≤ 1 ∧
    (((wrapper 1 [500]
        (fun n => if n = 0 then .connFail 0
          else .resp ⟨200, .absent, .json (.str "d")⟩)
        (fun _ => 0)).attempts : ℤ) ≤ 1 + 1 ∧
    (∀ v, (wrapper 1 [500]
        (fun n => if n = 0 then .connFail 0
          else .resp ⟨200, .absent, .json (.str "d")⟩)
        (fun _ => 0)).result = .ok v →
      ∃ n, n < (wrapper 1 [500]
        (fun n => if n = 0 then .connFail 0
          else .resp ⟨200, .absent, .json (.str "d")⟩)
        (fun _ => 0)).attempts ∧
        runRequest ((fun n => if n = 0 then .connFail 0
          else .resp ⟨200, .absent, .json (.str "d")⟩) n) = .ok v) ∧
    (∀ (m : ℕ) (v : Json), (m : ℤ) ≤ 1 →
      (∀ n, n < m → retriableEvent [500]
        ((fun n => if n = 0 then .connFail 0
          else .resp ⟨200, .absent, .json (.str "d")⟩) n)) →
      (∀ n, n < m → 0 ≤ backoffAt (fun _ => 0)
        (fun n => if n = 0 then .connFail 0
          else .resp ⟨200, .absent, .json (.str "d")⟩) n) →
      runRequest ((fun n => if n = 0 then .connFail 0
          else .resp ⟨200, .absent, .json (.str "d")⟩) m) = .ok v →
      (wrapper 1 [500]
        (fun n => if n = 0 then .connFail 0
          else .resp ⟨200, .absent, .json (.str "d")⟩)
        (fun _ => 0)).result = .ok v ∧
        (wrapper 1 [500]
        (fun n => if n = 0 then .connFail 0
          else .resp ⟨200, .absent, .json (.str "d")⟩)
        (fun _ => 0)).attempts = m + 1)) :=
  ⟨by norm_num, claim_C1 1 [500]
    (fun n => if n = 0 then .connFail 0
      else .resp ⟨200, .absent, .json (.str "d")⟩)
    (fun _ => 0) (by norm_num)⟩

/-- C2 counterexample: with `max_retries = 0`, a single retriable failure
(429 with `Retry-After: 7`) exhausts the budget on the first attempt, which
is also the final one; the claim says no backoff suspension occurs between
that final failure and the re-raise, but the code sleeps 7 seconds (the
`sleep(backoff)` on line 161 runs before the `retries > max_retries` check)
and only then re-raises. -/
theorem claim_C2_counterexample :
    (wrapper 0 [429] (fun _ => .resp ⟨429, .value 7, .empty⟩)
        (fun _ => 0)).result =
      .error (.httpError ⟨429, .value 7, .empty⟩) ∧
    (wrapper 0 [429] (fun _ => .resp ⟨429, .value 7, .empty⟩)
        (fun _ => 0)).attempts = 1 ∧
    (wrapper 0 [429] (fun _ => .resp ⟨429, .value 7, .empty⟩)
        (fun _ => 0)).sleeps = [7] := by
  have hstep : wrapper 0 [429]
      (fun _ => .resp ⟨429, .value 7, .empty⟩) (fun _ => 0) =
      ⟨.error (.httpError ⟨429, .value 7, .empty⟩), [7], 1⟩ := by
    have hr : handleResponse ⟨429, .value 7, .empty⟩ =
        .error (.httpError ⟨429, .value 7, .empty⟩) := rfl
    rw [wrapper, wrapperGo_http_retry (by norm_num) rfl hr (by norm_num),
      wrapperGo_stop_some (by norm_num)]
    norm_num [pySleep, computeBackoff]
  rw [hstep]
  exact ⟨rfl, rfl, rfl⟩

/-- C2 amended: when every in-budget attempt fails with a retriable
failure — of either kind: an HTTP response with a retriable status, a
connection failure, or a timeout — and each computed backoff is
non-negative (a parseable negative `Retry-After` hint would instead make
`time.sleep` raise `ValueError` and abort the call), the orchestrator
re-raises the most recent captured failure (the failure of the last
attempt, not an earlier one) and makes no further attempt; however,
contrary to the original claim, it does perform one backoff suspension
between that final failure and the re-raise (one sleep per failure, the
final failure included). -/
theorem claim_C2_amended (mr : ℤ) (codes : List ℕ)
    (ev : ℕ → TransportEvent) (uni : ℕ → ℚ) (hmr : 0 ≤ mr)
    (hall : ∀ (n : ℕ), (n : ℤ) ≤ mr → retriableEvent codes (ev n))
    (hb : ∀ (n : ℕ), (n : ℤ) ≤ mr → 0 ≤ backoffAt uni ev n) :
    wrapper mr codes ev uni =
      ⟨.error (capturedFailure (ev mr.toNat)),
       (List.range' 0 (mr.toNat + 1)).map (backoffAt uni ev),
       mr.toNat + 1⟩ := by
  unfold wrapper
  have h := wrapperGo_exhaust mr codes ev uni
    (mr + 1 - (0 : ℕ)).toNat 0 none (le_refl _) (by omega)
    (fun n _ h2 => hall n h2) (fun n _ h2 => hb n h2)
  simpa using h

/-- C2 witness: `max_retries = 1`, exhaustion by failures of both kinds —
a connection failure on attempt 0, then a 500 response on attempt 1; the
re-raised failure is the second (last) one and two sleeps happen, one after
each failure, the final one included. -/
theorem claim_C2_witness :
    (0 : ℤ) ≤ 1 ∧
    wrapper 1 [500]
        (fun n => if n = 0 then .connFail 5
          else .resp ⟨500, .absent, .json (.num n)⟩) (fun _ => 0) =
      ⟨.error (.httpError ⟨500, .absent, .json (.num 1)⟩),
       [1, 2], 2⟩ := by
  refine ⟨by norm_num, ?_⟩
  have h := claim_C2_amended 1 [500]
    (fun n => if n = 0 then .connFail 5
      else .resp ⟨500, .absent, .json (.num n)⟩) (fun _ => 0)
    (by norm_num)
    (by
      intro n hn
      rcases n with _ | _ | n
      · exact trivial
      · exact ⟨⟨by norm_num, by norm_num⟩, by norm_num⟩
      · exact absurd hn (by omega))
    (by
      intro n hn
      rcases n with _ | _ | n
      · norm_num [backoffAt]
      · norm_num [backoffAt, computeBackoff]
      · exact absurd hn (by omega))
  rw [h]
  norm_num [capturedFailure, backoffAt, computeBackoff, List.range'_succ]

/-- C3: a first attempt failing with an HTTP error whose status is not in
the retriable set makes exactly one attempt, performs no backoff sleep, and
re-raises the original failure unchanged (the very response record, with its
status, headers and body). -/
theorem claim_C3 (mr : ℤ) (codes : List ℕ) (ev : ℕ → TransportEvent)
    (uni : ℕ → ℚ) (r : Resp) (hmr : 0 ≤ mr) (hev : ev 0 = .resp r)
    (hst : raisesForStatus r.status) (hnr : r.status ∉ codes) :
    wrapper mr codes ev uni = ⟨.error (.httpError r), [], 1⟩ := by
  unfold wrapper
  exact wrapperGo_http_fatal (by omega) hev (handleResponse_http hst) hnr

/-- C3 witness: a 404 with a JSON body under the default configuration. -/
theorem claim_C3_witness :
    (0 : ℤ) ≤ DEFAULT_MAX_RETRIES ∧
    wrapper DEFAULT_MAX_RETRIES DEFAULT_RETRIABLE_HTTP_CODES
        (fun _ => .resp ⟨404, .absent, .json .null⟩) (fun _ => 0) =
      ⟨.error (.httpError ⟨404, .absent, .json .null⟩), [], 1⟩ :=
  ⟨by norm_num [DEFAULT_MAX_RETRIES],
   claim_C3 DEFAULT_MAX_RETRIES DEFAULT_RETRIABLE_HTTP_CODES
     (fun _ => .resp ⟨404, .absent, .json .null⟩) (fun _ => 0)
     ⟨404, .absent, .json .null⟩ (by norm_num [DEFAULT_MAX_RETRIES]) rfl
     (by norm_num [raisesForStatus]) (by decide)⟩

/-- C4 counterexample: a parseable `Retry-After: -1` hint is used verbatim,
so the computed delay is `-1 < 0`; "the computed delay is never negative"
is false. The wrapper passes that negative delay to `time.sleep`, which
raises `ValueError` (CPython rejects negative sleep lengths), so the call
aborts after the single attempt with no suspension performed. -/
theorem claim_C4_counterexample :
    computeBackoff 0 0 (.value (-1)) = -1 ∧
    computeBackoff 0 0 (.value (-1)) < 0 ∧
    (wrapper 0 [429] (fun _ => .resp ⟨429, .value (-1), .empty⟩)
        (fun _ => 0)).result = .error .valueError ∧
    (wrapper 0 [429] (fun _ => .resp ⟨429, .value (-1), .empty⟩)
        (fun _ => 0)).sleeps = [] := by
  have hstep : wrapper 0 [429]
      (fun _ => .resp ⟨429, .value (-1), .empty⟩) (fun _ => 0) =
      ⟨.error .valueError, [], 1⟩ := by
    have hr : handleResponse ⟨429, .value (-1), .empty⟩ =
        .error (.httpError ⟨429, .value (-1), .empty⟩) := rfl
    rw [wrapper, wrapperGo_http_retry (by norm_num) rfl hr (by norm_num)]
    norm_num [pySleep, computeBackoff]
  rw [hstep]
  exact ⟨rfl, by norm_num [computeBackoff], rfl, rfl⟩

/-- C4 amended: a hint that parses as a valid number is used verbatim as
the delay with no jitter added — even when it is negative; when the hint is
missing or malformed the policy silently falls back to
`min(2^attempt, 20) + uniform_random(0, jitter_bound)`, and only in that
fallback case is the delay guaranteed non-negative (for a non-negative
jitter sample). -/
theorem claim_C4_amended (a : ℕ) (u q : ℚ) (hu0 : 0 ≤ u) :
    computeBackoff a u (.value q) = q ∧
    computeBackoff a u .absent = min ((2 : ℚ) ^ a) 20 + u ∧
    computeBackoff a u .malformed = min ((2 : ℚ) ^ a) 20 + u ∧
    0 ≤ computeBackoff a u .absent ∧
    0 ≤ computeBackoff a u .malformed := by
  have hpos : (0 : ℚ) < 2 ^ a := pow_pos (by norm_num) a
  have hmin : (0 : ℚ) ≤ min ((2 : ℚ) ^ a) 20 :=
    le_min (le_of_lt hpos) (by norm_num)
  refine ⟨rfl, rfl, rfl, ?_, ?_⟩ <;>
    · show (0 : ℚ) ≤ min ((2 : ℚ) ^ a) 20 + u
      linarith

/-- C4 witness: attempt 2, jitter sample 1/4, hint 7. -/
theorem claim_C4_witness :
    (0 : ℚ) ≤ 1 / 4 ∧
    (computeBackoff 2 (1 / 4) (.value 7) = 7 ∧
     computeBackoff 2 (1 / 4) .absent = min ((2 : ℚ) ^ 2) 20 + 1 / 4 ∧
     computeBackoff 2 (1 / 4) .malformed = min ((2 : ℚ) ^ 2) 20 + 1 / 4 ∧
     0 ≤ computeBackoff 2 (1 / 4) .absent ∧
     0 ≤ computeBackoff 2 (1 / 4) .malformed) :=
  ⟨by norm_num, claim_C4_amended 2 (1 / 4) 7 (by norm_num)⟩

/-- C5: without a server hint the delay is exactly
`min(2^attempt, 20) + uniform_random(0, jitter_bound)`; for attempts 0–4 it
lies in `[2^a, 2^a + j]`, for attempts ≥ 5 in `[20, 20 + j]`, and it is
never negative. -/
theorem claim_C5 (a : ℕ) (u j : ℚ) (hu0 : 0 ≤ u) (huj : u ≤ j) :
    computeBackoff a u .absent = min ((2 : ℚ) ^ a) 20 + u ∧
    (a ≤ 4 → (2 : ℚ) ^ a ≤ computeBackoff a u .absent ∧
      computeBackoff a u .absent ≤ (2 : ℚ) ^ a + j) ∧
    (5 ≤ a → (20 : ℚ) ≤ computeBackoff a u .absent ∧
      computeBackoff a u .absent ≤ 20 + j) ∧
    0 ≤ computeBackoff a u .absent := by
  have hpos : (0 : ℚ) < 2 ^ a := pow_pos (by norm_num) a
  refine ⟨rfl, ?_, ?_, ?_⟩
  · intro ha
    have h16 : (2 : ℚ) ^ a ≤ 2 ^ 4 :=
      pow_le_pow_right₀ (by norm_num) ha
    have hmin : min ((2 : ℚ) ^ a) 20 = (2 : ℚ) ^ a := by
      apply min_eq_left
      calc (2 : ℚ) ^ a ≤ 2 ^ 4 := h16
        _ ≤ 20 := by norm_num
    show (2 : ℚ) ^ a ≤ min ((2 : ℚ) ^ a) 20 + u ∧
      min ((2 : ℚ) ^ a) 20 + u ≤ (2 : ℚ) ^ a + j
    rw [hmin]
    constructor <;> linarith
  · intro ha
    have h32 : (2 : ℚ) ^ 5 ≤ 2 ^ a :=
      pow_le_pow_right₀ (by norm_num) ha
    have hmin : min ((2 : ℚ) ^ a) 20 = 20 := by
      apply min_eq_right
      calc (20 : ℚ) ≤ 2 ^ 5 := by norm_num
        _ ≤ 2 ^ a := h32
    show (20 : ℚ) ≤ min ((2 : ℚ) ^ a) 20 + u ∧
      min ((2 : ℚ) ^ a) 20 + u ≤ 20 + j
    rw [hmin]
    constructor <;> linarith
  · have hmin : (0 : ℚ) ≤ min ((2 : ℚ) ^ a) 20 :=
      le_min (le_of_lt hpos) (by norm_num)
    show (0 : ℚ) ≤ min ((2 : ℚ) ^ a) 20 + u
    linarith

/-- C5 witness: attempt 3, jitter sample 1/4, jitter bound 1/2. -/
theorem claim_C5_witness :
    ((0 : ℚ) ≤ 1 / 4 ∧ (1 / 4 : ℚ) ≤ 1 / 2) ∧
    (computeBackoff 3 (1 / 4) .absent = min ((2 : ℚ) ^ 3) 20 + 1 / 4 ∧
     (3 ≤ 4 → (2 : ℚ) ^ 3 ≤ computeBackoff 3 (1 / 4) .absent ∧
       computeBackoff 3 (1 / 4) .absent ≤ (2 : ℚ) ^ 3 + 1 / 2) ∧
     (5 ≤ 3 → (20 : ℚ) ≤ computeBackoff 3 (1 / 4) .absent ∧
       computeBackoff 3 (1 / 4) .absent ≤ 20 + 1 / 2) ∧
     0 ≤ computeBackoff 3 (1 / 4) .absent) :=
  ⟨⟨by norm_num, by norm_num⟩,
   claim_C5 3 (1 / 4) (1 / 2) (by norm_num) (by norm_num)⟩

end Uberpy

namespace Uberpy

/-- C6 counterexample: the builder does not yield "no empty segments /
exactly one separator": a string argument that strips to empty produces a
double separator (`buildUrl "r" ["", "x"] = "r//x"`); and leading
separators are NOT stripped from the root (`buildUrl "/r" [] = "/r"`,
not `"r"`; only trailing ones are removed). -/
theorem claim_C6_counterexample :
    buildUrl "r".data [UrlArg.str "", UrlArg.str "x"] = "r//x".data ∧
    hasDoubleSlash (buildUrl "r".data [UrlArg.str "", UrlArg.str "x"]) =
      true ∧
    buildUrl "/r".data [] = "/r".data := by
  refine ⟨by decide, by decide, by decide⟩

/-- C6 amended: the built URL is the root with its *trailing* separators
stripped, followed by one separator before each argument's segment, where
each segment is the argument's string form with leading/trailing separators
stripped and then percent-escaped; escaped segments never contain a
separator (segment-internal separators are escaped); an empty argument list
yields the root with trailing separators stripped; and whenever every
argument strips to a non-empty string, every joined segment is non-empty
(so consecutive segments are separated by exactly one separator). -/
theorem claim_C6_amended (root : List Char) (args : List UrlArg) :
    buildUrl root [] = rstripSlashes root ∧
    (∀ a ∈ args, '/' ∉ argSeg a) ∧
    buildUrl root args =
      rstripSlashes root ++
        (args.map (fun a => '/' :: argSeg a)).flatten ∧
    ((∀ a ∈ args, stripSlashes (pyStr a) ≠ []) →
      ∀ a ∈ args, argSeg a ≠ []) := by
  refine ⟨?_, ?_, ?_, ?_⟩
  · unfold buildUrl
    simp [List.intercalate]
  · intro a _
    exact slash_not_mem_quoteSeg _
  · unfold buildUrl
    rw [intercalate_slash, List.map_map]
    rfl
  · intro hne a ha
    exact quoteSeg_ne_nil (hne a ha)

/-- C6 witness: a segment containing a separator is escaped (no `'/'`
survives in it) and is non-empty; an integer argument becomes its decimal
segment. -/
theorem claim_C6_witness :
    '/' ∉ argSeg (UrlArg.str "a/b") ∧
    argSeg (UrlArg.str "a/b") ≠ [] ∧
    buildUrl "r".data [UrlArg.int 7] =
      rstripSlashes "r".data ++
        ([UrlArg.int 7].map (fun a => '/' :: argSeg a)).flatten :=
  ⟨(claim_C6_amended "r".data [UrlArg.str "a/b"]).2.1 _ (by simp),
   (claim_C6_amended "r".data [UrlArg.str "a/b"]).2.2.2 (by decide) _
     (by simp),
   (claim_C6_amended "r".data [UrlArg.int 7]).2.2.1⟩

/-- C7: the executor works on a copy of the caller's header mapping, which
is returned to the caller unchanged; the outgoing headers carry
`Authorization: Bearer <token>` unconditionally (overriding any
caller-supplied value), `Accept` is the caller's value when supplied and
`application/json` otherwise, and every other key is passed through
unchanged. -/
theorem claim_C7 (caller : Option (List (String × String)))
    (token : String) :
    (requestHeaders caller token).1 = caller ∧
    (requestHeaders caller token).2.lookup "Authorization" =
      some ("Bearer " ++ token) ∧
    (requestHeaders caller token).2.lookup "Accept" =
      some (((caller.getD []).lookup "Accept").getD "application/json") ∧
    (∀ k, k ≠ "Authorization" → k ≠ "Accept" →
      (requestHeaders caller token).2.lookup k =
        (caller.getD []).lookup k) := by
  have h2eq : (requestHeaders caller token).2 =
      dictSetdefault
        (dictSet (caller.getD []) "Authorization" ("Bearer " ++ token))
        "Accept" "application/json" := rfl
  refine ⟨rfl, ?_, ?_, ?_⟩
  · rw [h2eq, lookup_dictSetdefault_ne _ _ _ _ (by decide)]
    exact lookup_dictSet_self _ _ _
  · rw [h2eq, lookup_dictSetdefault_self,
      lookup_dictSet_ne _ _ _ _ (by decide)]
  · intro k hk1 hk2
    rw [h2eq, lookup_dictSetdefault_ne _ _ _ _ hk2,
      lookup_dictSet_ne _ _ _ _ hk1]

/-- C7 witness: a caller mapping that supplies `Accept`, a stale
`Authorization` and an unrelated key. -/
theorem claim_C7_witness :
    (requestHeaders
        (some [("Accept", "text/plain"), ("X-Trace", "1"),
               ("Authorization", "Bearer old")]) "tok").1 =
      some [("Accept", "text/plain"), ("X-Trace", "1"),
            ("Authorization", "Bearer old")] ∧
    (requestHeaders
        (some [("Accept", "text/plain"), ("X-Trace", "1"),
               ("Authorization", "Bearer old")]) "tok").2.lookup
        "Authorization" = some "Bearer tok" ∧
    (requestHeaders
        (some [("Accept", "text/plain"), ("X-Trace", "1"),
               ("Authorization", "Bearer old")]) "tok").2.lookup "Accept" =
      some "text/plain" ∧
    (requestHeaders
        (some [("Accept", "text/plain"), ("X-Trace", "1"),
               ("Authorization", "Bearer old")]) "tok").2.lookup "X-Trace" =
      some "1" := by
  have h := claim_C7
    (some [("Accept", "text/plain"), ("X-Trace", "1"),
           ("Authorization", "Bearer old")]) "tok"
  refine ⟨h.1, ?_, ?_, ?_⟩
  · rw [h.2.1]
    rfl
  · rw [h.2.2.1]
    rfl
  · rw [h.2.2.2 "X-Trace" (by decide) (by decide)]
    rfl


/-- C8 counterexample: a response with status 600 (≥ 400) does not fail —
`requests`' `raise_for_status` only raises for 400–599 — and the executor
returns the parsed body instead of an `HttpError`. -/
theorem claim_C8_counterexample :
    400 ≤ 600 ∧
    handleResponse ⟨600, .absent, .json (.str "x")⟩ = .ok (.str "x") :=
  ⟨by norm_num, rfl⟩

/-- C8 amended: the executor fails with an `HttpError` carrying the status
and the response exactly for statuses 400–599 (the statuses
`raise_for_status` raises for); for any other status it succeeds: `{}` on
204 or an empty body, and the parsed JSON body otherwise. -/
theorem claim_C8_amended (r : Resp) :
    (raisesForStatus r.status →
      handleResponse r = .error (.httpError r)) ∧
    (¬ raisesForStatus r.status →
      ((r.status = 204 ∨ r.body = .empty) →
        handleResponse r = .ok (.obj [])) ∧
      (r.status ≠ 204 → ∀ j, r.body = .json j →
        handleResponse r = .ok j)) := by
  constructor
  · exact handleResponse_http
  · intro hnr
    constructor
    · intro hem
      unfold handleResponse
      rw [if_neg hnr, if_pos]
      rcases hem with h | h
      · exact Or.inl h
      · exact Or.inr (by rw [h]; rfl)
    · intro h204 j hbody
      simp [handleResponse, hnr, hbody, BodyContent.isEmptyContent, h204]

/-- C8 witness: a 404 fails with the `HttpError` carrying the response; a
204 and an empty 200 body decode to `{}`; a JSON 200 body is returned. -/
theorem claim_C8_witness :
    (raisesForStatus 404 ∧
      handleResponse ⟨404, .absent, .json .null⟩ =
        .error (.httpError ⟨404, .absent, .json .null⟩)) ∧
    handleResponse ⟨204, .absent, .empty⟩ = .ok (.obj []) ∧
    handleResponse ⟨200, .absent, .empty⟩ = .ok (.obj []) ∧
    handleResponse ⟨200, .absent, .json (.str "d")⟩ = .ok (.str "d") :=
  ⟨⟨by norm_num [raisesForStatus],
    (claim_C8_amended ⟨404, .absent, .json .null⟩).1
      (by norm_num [raisesForStatus])⟩,
   ((claim_C8_amended ⟨204, .absent, .empty⟩).2
       (by norm_num [raisesForStatus])).1 (Or.inl rfl),
   ((claim_C8_amended ⟨200, .absent, .empty⟩).2
       (by norm_num [raisesForStatus])).1 (Or.inr rfl),
   ((claim_C8_amended ⟨200, .absent, .json (.str "d")⟩).2
       (by norm_num [raisesForStatus])).2 (by norm_num) _ rfl⟩

/-- C9 counterexample: a 304 response (non-2xx) whose body decodes to
`{"access_token": "tok"}` does not make the token fetcher raise —
`raise_for_status` only raises for 400–599 — and the fetcher returns the
token normally, contradicting "on any non-2xx response it raises
immediately". -/
theorem claim_C9_counterexample :
    ¬ (200 ≤ 304 ∧ 304 < 300) ∧
    (get_access_token "i" "s"
        ⟨304, .absent, .json (.obj [("access_token", .str "tok")])⟩).2 =
      .ok (.str "tok") := by
  refine ⟨by norm_num, ?_⟩
  rfl

/-- C9 amended: `get_access_token` makes exactly one POST of the
client-credentials grant with fixed scope and grant type to the fixed
endpoint `<oauth-root>/v2/token`; it raises immediately (with zero retries)
on any 4xx/5xx response — the statuses `raise_for_status` raises for — and
on success returns exactly the `access_token` field of the decoded JSON
body. -/
theorem claim_C9_amended (cid cs : String) (resp : Resp) :
    (get_access_token cid cs resp).1 =
      [⟨"https://auth.uber.com/oauth/v2/token",
        tokenRequestData cid cs, 10⟩] ∧
    (tokenRequestData cid cs).lookup "scope" = some "eats.deliveries" ∧
    (tokenRequestData cid cs).lookup "grant_type" =
      some "client_credentials" ∧
    (raisesForStatus resp.status →
      (get_access_token cid cs resp).2 = .error (.httpError resp)) ∧
    (¬ raisesForStatus resp.status →
      ∀ (fields : List (String × Json)) (t : Json),
        resp.body = .json (.obj fields) →
        fields.lookup "access_token" = some t →
        (get_access_token cid cs resp).2 = .ok t) := by
  refine ⟨?_, ?_, ?_, ?_, ?_⟩
  · rfl
  · rfl
  · rfl
  · intro h
    simp [get_access_token, h]
  · intro h fields t hbody hlook
    simp [get_access_token, h, hbody, hlook]

/-- C9 witness: a 401 raises immediately with the `HttpError` for that
response (zero retries: the single call's result is the raise); a 200 with
`{"access_token": "tok"}` returns `"tok"`. -/
theorem claim_C9_witness :
    (raisesForStatus 401 ∧
      (get_access_token "id" "sec" ⟨401, .absent, .json (.obj [])⟩).2 =
        .error (.httpError ⟨401, .absent, .json (.obj [])⟩)) ∧
    (get_access_token "id" "sec"
        ⟨200, .absent, .json (.obj [("access_token", .str "tok")])⟩).2 =
      .ok (.str "tok") :=
  ⟨⟨by norm_num [raisesForStatus],
    (claim_C9_amended "id" "sec" ⟨401, .absent, .json (.obj [])⟩).2.2.2.1
      (by norm_num [raisesForStatus])⟩,
   (claim_C9_amended "id" "sec"
       ⟨200, .absent, .json (.obj [("access_token", .str "tok")])⟩).2.2.2.2
     (by norm_num [raisesForStatus]) _ _ rfl rfl⟩

/-- C10: the `assert exception` after the loop is sound exactly when
`max_retries ≥ 0`: with a non-negative budget the post-loop re-raise never
raises `AssertionError`; with a negative `max_retries` the loop body never
runs, zero attempts are made, no sleep happens, and the call raises
`AssertionError` instead of any HTTP or transport failure. -/
theorem claim_C10 (mr : ℤ) (codes : List ℕ) (ev : ℕ → TransportEvent)
    (uni : ℕ → ℚ) :
    (0 ≤ mr →
      (wrapper mr codes ev uni).result ≠ .error .assertionError) ∧
    (mr < 0 →
      wrapper mr codes ev uni = ⟨.error .assertionError, [], 0⟩) := by
  constructor
  · intro hmr
    unfold wrapper
    exact wrapperGo_no_assert mr codes ev uni (mr + 1 - (0 : ℕ)).toNat 0
      none (le_refl _) (fun e he => nomatch he) (Or.inl (by omega))
  · intro hmr
    unfold wrapper
    exact wrapperGo_stop_none (by omega)

/-- C10 witness: with the default budget the result of an
always-connection-failing run is the transport failure, never an
`AssertionError`; with `max_retries = -1` the call makes zero attempts and
raises `AssertionError`. -/
theorem claim_C10_witness :
    ((0 : ℤ) ≤ 3 ∧
      (wrapper 3 [] (fun _ => .connFail 0) (fun _ => 0)).result ≠
        .error .assertionError) ∧
    ((-1 : ℤ) < 0 ∧
      wrapper (-1) [] (fun _ => .connFail 0) (fun _ => 0) =
        ⟨.error .assertionError, [], 0⟩) :=
  ⟨⟨by norm_num, (claim_C10 3 [] (fun _ => .connFail 0) (fun _ => 0)).1
      (by norm_num)⟩,
   ⟨by norm_num, (claim_C10 (-1) [] (fun _ => .connFail 0)
      (fun _ => 0)).2 (by norm_num)⟩⟩

end Uberpy
